import Mathlib

/-!
Verification of the openVulnQuery query client (`query_client.py`).

The module is a path-building REST dispatcher: it normalizes an advisory
format token, builds a request path from a topic plus arguments, issues a
GET request, and maps the JSON response to advisory objects through an
external factory.  We embed the module shallowly: JSON values are an
inductive type, Python exceptions are an explicit error type threaded
through `Except`, and the HTTP transport and the advisory factory are
parameters of the client operations.
-/

namespace OpenVulnQuery

/-- JSON values as returned by the HTTP layer (`r.json()`). -/
inductive Json : Type
  | null : Json
  | str : String → Json
  | num : Int → Json
  | arr : List Json → Json
  | obj : List (String × Json) → Json

/-- Python values appearing as exception arguments (`e.args`): the
re-raised HTTP error in `get_by_ios` carries an int and a string. -/
inductive PyVal : Type
  | int : Int → PyVal
  | str : String → PyVal

/-- The observable parts of a `requests` response object: HTTP status
code, body text, and parsed JSON body. -/
structure Response : Type where
  status_code : Int
  text : String
  jsonBody : Json

/-- Python exceptions raised by the module: `KeyError` (unknown dispatch
topic / missing JSON key), `AttributeError` (attribute access on `None`),
`TypeError` (missing required argument, non-iterable), and
`requests.exceptions.HTTPError` carrying positional args and an optional
attached response. -/
inductive PyError : Type
  | keyError : String → PyError
  | attributeError : String → PyError
  | typeError : String → PyError
  | httpError : List PyVal → Option Response → PyError

/-- Modelled from the spec: `ADV_TOKENS = constants.ADVISORY_FORMAT_TOKENS`
lives in the external `constants` module, which is not part of the source
under verification.  The spec describes it as a fixed enumerated set of
format tokens whose last member is the fallback default, and the docstring
of `ensure_adv_format_token` enumerates it: cvrf, oval, ios — with ios
last. -/
def ADV_TOKENS : List String := ["cvrf", "oval", "ios"]

/-- TEMPORAL_FILTER_KEYS from the source: the parameter names a temporal
filter can carry. -/
def TEMPORAL_FILTER_KEYS : List String := ["startDate", "endDate"]

/-- PUBLISHED_FIRST constant from the source. -/
def PUBLISHED_FIRST : String := "firstpublished"

/-- PUBLISHED_LAST constant from the source. -/
def PUBLISHED_LAST : String := "lastpublished"

/-- Embedding of `ensure_adv_format_token`: return the argument if it is a
member of `ADV_TOKENS`, else the last token.  The argument is an
`Option String` because callers pass either a string or Python `None`
(the ios paths call `advisory_list(…, None)`); `None` is never a member
of a tuple of strings, so it falls to the default branch. -/
def ensure_adv_format_token (adv_format : Option String) : String :=
  match adv_format with
  | some s => if s ∈ ADV_TOKENS then s else ADV_TOKENS.getLast!
  | none => ADV_TOKENS.getLast!

/-- Embedding of class `Filter`: a path suffix and optional query
parameters (the Python defaults are an empty path and `params=None`).
Query-parameter dictionaries are modelled as association lists. -/
structure Filter : Type where
  path : String := ""
  params : Option (List (String × String)) := none

/-- Embedding of class `TemporalFilter`: `params = dict(zip(TEMPORAL_FILTER_KEYS, args))`.
`zip` truncates at the shorter sequence, so surplus positional arguments
are dropped and missing ones leave keys absent. -/
def TemporalFilter (path : String) (args : List String) : Filter :=
  { path := path, params := some (List.zip TEMPORAL_FILTER_KEYS args) }

/-- Embedding of class `FirstPublished`. -/
def FirstPublished (args : List String) : Filter :=
  TemporalFilter PUBLISHED_FIRST args

/-- Embedding of class `LastUpdated` (its aspect token is `lastpublished`). -/
def LastUpdated (args : List String) : Filter :=
  TemporalFilter PUBLISHED_LAST args

/-- Python subscript `j[key]` on a JSON value: looks the key up in an
object, raising `KeyError` when absent and `TypeError` when the value is
not a dictionary. -/
def Json.subscript (j : Json) (key : String) : Except PyError Json :=
  match j with
  | .obj kvs =>
    match kvs.lookup key with
    | some v => Except.ok v
    | none => Except.error (PyError.keyError key)
  | _ => Except.error (PyError.typeError "object is not subscriptable")

/-- Python iteration over a JSON value, as the list comprehension in
`advisory_list` performs: lists yield their elements, strings their
characters, dictionaries their keys; other values are not iterable. -/
def Json.iterate (j : Json) : Except PyError (List Json) :=
  match j with
  | .arr xs => Except.ok xs
  | .str s => Except.ok (s.data.map (fun c => Json.str (String.mk [c])))
  | .obj kvs => Except.ok (kvs.map (fun kv => Json.str kv.fst))
  | _ => Except.error (PyError.typeError "object is not iterable")

/-- Embedding of `OpenVulnQueryClient.advisory_list`: normalize the format
token, then build one advisory object per entry via the external factory
(abstracted as `factory`; the logger argument is dropped as pure
plumbing), preserving order. -/
def advisory_list {α : Type} (factory : Json → String → α)
    (advisories : Json) (adv_format : Option String) :
    Except PyError (List α) := do
  let fmt := ensure_adv_format_token adv_format
  let items ← advisories.iterate
  pure (items.map (fun adv => factory adv fmt))

/-- A transport function standing for the `requests.get` call: full URL
and optional query parameters to a response. -/
def Transport : Type := String → Option (List (String × String)) → Response

/-- Model of `requests` `Response.raise_for_status`: raise `HTTPError`
with the response attached for any 4xx or 5xx status, else do nothing. -/
def raise_for_status (r : Response) : Except PyError Unit :=
  if 400 ≤ r.status_code ∧ r.status_code < 600 then
    Except.error (PyError.httpError
      [PyVal.str (toString r.status_code ++ " Error")] (some r))
  else
    Except.ok ()

/-- Embedding of `OpenVulnQueryClient.get_request`: build the full URL
from the configured base (`config.API_URL`, passed here as `base_url`),
issue the GET, raise for non-success status, return the parsed JSON. -/
def get_request (net : Transport) (base_url : String)
    (path : String) (params : Option (List (String × String))) :
    Except PyError Json := do
  let req_url := base_url ++ "/" ++ path
  let r := net req_url params
  let _ ← raise_for_status r
  pure r.jsonBody

/-- The type of the bound method `self.get_request` as the topic handlers
see it: a path and optional query parameters to either a Python error or
a JSON value. -/
def GetRequest : Type := String → Option (List (String × String)) → Except PyError Json

/-- Embedding of `OpenVulnQueryClient.get_by_all`: path
`{adv_format}/{all}/{filter}` with the filter params as query parameters.
The Python parameter `a_filter` has no default but a caller may pass
`None`, upon which the attribute accesses `a_filter.path` raise
`AttributeError`. -/
def get_by_all {α : Type} (gr : GetRequest) (factory : Json → String → α)
    (adv_format : Option String) (all_adv : String) (a_filter : Option Filter) :
    Except PyError (List α) := do
  match a_filter with
  | none =>
    throw (PyError.attributeError
      "\x27NoneType\x27 object has no attribute \x27path\x27")
  | some f => do
    let req_path := ensure_adv_format_token adv_format ++ "/" ++ all_adv
      ++ "/" ++ f.path
    let advisories ← gr req_path f.params
    let advs ← advisories.subscript "advisories"
    advisory_list factory advs adv_format

/-- Embedding of `OpenVulnQueryClient.get_by_cve`: path
`{adv_format}/cve/{cve}`, no query parameters; `a_filter` is accepted and
ignored. -/
def get_by_cve {α : Type} (gr : GetRequest) (factory : Json → String → α)
    (adv_format : Option String) (cve : String) (a_filter : Option Filter) :
    Except PyError (List α) := do
  let req_path := ensure_adv_format_token adv_format ++ "/cve/" ++ cve
  let advisories ← gr req_path none
  let advs ← advisories.subscript "advisories"
  advisory_list factory advs adv_format

/-- Embedding of `OpenVulnQueryClient.get_by_advisory`: path
`{adv_format}/advisory/{advisory}`, no query parameters; the raw JSON
response is wrapped into a one-element list under an `advisories` key
before mapping. -/
def get_by_advisory {α : Type} (gr : GetRequest) (factory : Json → String → α)
    (adv_format : Option String) (an_advisory : String)
    (a_filter : Option Filter) : Except PyError (List α) := do
  let req_path := ensure_adv_format_token adv_format ++ "/advisory/"
    ++ an_advisory
  let j ← gr req_path none
  let advisories : Json := Json.obj [("advisories", Json.arr [j])]
  let advs ← advisories.subscript "advisories"
  advisory_list factory advs adv_format

/-- Embedding of `OpenVulnQueryClient.get_by_severity`: path
`{adv_format}/severity/{severity}/{filter}` where the filter segment is
guarded against `None` (`Filter().path if a_filter is None else
a_filter.path`), but the subsequent query-parameter access
`a_filter.params` is NOT guarded: with `a_filter = None` it raises
`AttributeError` before the request is issued. -/
def get_by_severity {α : Type} (gr : GetRequest) (factory : Json → String → α)
    (adv_format : Option String) (severity : String)
    (a_filter : Option Filter) : Except PyError (List α) := do
  let fpath := match a_filter with
    | none => ({} : Filter).path
    | some f => f.path
  let req_path := ensure_adv_format_token adv_format ++ "/severity/"
    ++ severity ++ "/" ++ fpath
  let fparams ← match a_filter with
    | none =>
      throw (PyError.attributeError
        "\x27NoneType\x27 object has no attribute \x27params\x27")
    | some f => pure f.params
  let advisories ← gr req_path fparams
  let advs ← advisories.subscript "advisories"
  advisory_list factory advs adv_format

/-- Embedding of `OpenVulnQueryClient.get_by_year`: path
`{adv_format}/year/{year}`, no query parameters. -/
def get_by_year {α : Type} (gr : GetRequest) (factory : Json → String → α)
    (adv_format : Option String) (year : String) (a_filter : Option Filter) :
    Except PyError (List α) := do
  let req_path := ensure_adv_format_token adv_format ++ "/year/" ++ year
  let advisories ← gr req_path none
  let advs ← advisories.subscript "advisories"
  advisory_list factory advs adv_format

/-- Embedding of `OpenVulnQueryClient.get_by_latest`: path
`{adv_format}/latest/{latest}`, no query parameters. -/
def get_by_latest {α : Type} (gr : GetRequest) (factory : Json → String → α)
    (adv_format : Option String) (latest : String) (a_filter : Option Filter) :
    Except PyError (List α) := do
  let req_path := ensure_adv_format_token adv_format ++ "/latest/" ++ latest
  let advisories ← gr req_path none
  let advs ← advisories.subscript "advisories"
  advisory_list factory advs adv_format

/-- Embedding of `OpenVulnQueryClient.get_by_product`: path
`{adv_format}/product` with the product name as query parameter. -/
def get_by_product {α : Type} (gr : GetRequest) (factory : Json → String → α)
    (adv_format : Option String) (product_name : String)
    (a_filter : Option Filter) : Except PyError (List α) := do
  let req_path := ensure_adv_format_token adv_format ++ "/product"
  let advisories ← gr req_path (some [("product", product_name)])
  let advs ← advisories.subscript "advisories"
  advisory_list factory advs adv_format

/-- Shared body of the ios topics: fixed request path, version as query
parameter, and the result list built with format `None` (coerced to the
platform default token by `advisory_list`). -/
def ios_request_body {α : Type} (gr : GetRequest) (factory : Json → String → α)
    (req_path : String) (ios_version : String) : Except PyError (List α) := do
  let advisories ← gr req_path (some [("version", ios_version)])
  let advs ← advisories.subscript "advisories"
  advisory_list factory advs none

/-- Shared `except requests.exceptions.HTTPError` clause of the ios
topics: re-raise `HTTPError(e.response.status_code, e.response.text)` —
a fresh error whose args are the status code and body text and which has
no attached response.  When the caught error has no response attached,
`e.response.status_code` itself raises `AttributeError`. -/
def ios_rewrap {α : Type} (body : Except PyError (List α)) :
    Except PyError (List α) :=
  match body with
  | Except.error (PyError.httpError _ resp) =>
    match resp with
    | some r =>
      Except.error (PyError.httpError
        [PyVal.int r.status_code, PyVal.str r.text] none)
    | none =>
      Except.error (PyError.attributeError
        "\x27NoneType\x27 object has no attribute \x27status_code\x27")
  | other => other

/-- Embedding of `OpenVulnQueryClient.get_by_ios_xe`: fixed path `iosxe`,
version as query parameter, format argument unused, HTTP errors
re-wrapped. -/
def get_by_ios_xe {α : Type} (gr : GetRequest) (factory : Json → String → α)
    (adv_format : Option String) (ios_version : String)
    (a_filter : Option Filter) : Except PyError (List α) :=
  ios_rewrap (ios_request_body gr factory "iosxe" ios_version)

/-- Embedding of `OpenVulnQueryClient.get_by_ios`: fixed path `ios`,
version as query parameter, format argument unused, HTTP errors
re-wrapped. -/
def get_by_ios {α : Type} (gr : GetRequest) (factory : Json → String → α)
    (adv_format : Option String) (ios_version : String)
    (a_filter : Option Filter) : Except PyError (List α) :=
  ios_rewrap (ios_request_body gr factory "ios" ios_version)

/-- The topic names the `get_by` trampoline table supports. -/
def SUPPORTED_TOPICS : List String :=
  ["all", "cve", "advisory", "severity", "year", "latest", "product",
   "ios_xe", "ios"]

/-- Embedding of `OpenVulnQueryClient.get_by`: look the topic up in the
trampoline table, raising `KeyError` naming the topic when unsupported,
else call through with the format, the aspect, and the keyword
arguments.  `kwargs` is `none` when no `a_filter` keyword is given (the
handlers then use their `a_filter=None` default; `get_by_all`, which has
no default, raises `TypeError`) and `some f` when `a_filter=f` is
passed. -/
def get_by {α : Type} (gr : GetRequest) (factory : Json → String → α)
    (topic : String) (format : Option String) (aspect : String)
    (kwargs : Option (Option Filter)) : Except PyError (List α) :=
  if topic = "all" then
    match kwargs with
    | none =>
      Except.error (PyError.typeError
        "get_by_all() missing 1 required positional argument: \x27a_filter\x27")
    | some f => get_by_all gr factory format aspect f
  else if topic = "cve" then
    get_by_cve gr factory format aspect (kwargs.getD none)
  else if topic = "advisory" then
    get_by_advisory gr factory format aspect (kwargs.getD none)
  else if topic = "severity" then
    get_by_severity gr factory format aspect (kwargs.getD none)
  else if topic = "year" then
    get_by_year gr factory format aspect (kwargs.getD none)
  else if topic = "latest" then
    get_by_latest gr factory format aspect (kwargs.getD none)
  else if topic = "product" then
    get_by_product gr factory format aspect (kwargs.getD none)
  else if topic = "ios_xe" then
    get_by_ios_xe gr factory format aspect (kwargs.getD none)
  else if topic = "ios" then
    get_by_ios gr factory format aspect (kwargs.getD none)
  else
    Except.error (PyError.keyError
      ("REST API \x27topic\x27 (" ++ topic ++ ") not (yet) supported."))

/-- Reduction of an Except bind on a success value, used to unfold the
embedded do-blocks. -/
theorem except_ok_bind {ε α β : Type} (a : α) (f : α → Except ε β) :
    (Except.ok a : Except ε α) >>= f = f a := rfl

/-- Reduction of an Except bind on an error value. -/
theorem except_error_bind {ε α β : Type} (e : ε) (f : α → Except ε β) :
    (Except.error e : Except ε α) >>= f = Except.error e := rfl

/-- C1: for every input string, `ensure_adv_format_token` returns the
input unchanged when it is a member of the advisory-format token set,
and returns the last entry of that set (the default token) for every
input not in the set; being a total function, it never raises. -/
theorem ensure_adv_format_token_spec (s : String) :
    (s ∈ ADV_TOKENS → ensure_adv_format_token (some s) = s) ∧
    (s ∉ ADV_TOKENS → ensure_adv_format_token (some s) = ADV_TOKENS.getLast!) := by
  constructor
  · intro h
    simp [ensure_adv_format_token, h]
  · intro h
    simp [ensure_adv_format_token, h]

/-- Witness for C1 at the recognized token `oval` and the unrecognized
token `bogus`. -/
theorem ensure_adv_format_token_spec_witness :
    ensure_adv_format_token (some "oval") = "oval" ∧
    ensure_adv_format_token (some "bogus") = ADV_TOKENS.getLast! :=
  ⟨(ensure_adv_format_token_spec "oval").1 (by decide),
   (ensure_adv_format_token_spec "bogus").2 (by decide)⟩

/-- C6: `FirstPublished` applied to the two dates produces a filter with
path `firstpublished` and params mapping `startDate` and `endDate` to
the two dates. -/
theorem FirstPublished_spec :
    FirstPublished ["2020-01-01", "2020-02-01"] =
      { path := "firstpublished",
        params := some [("startDate", "2020-01-01"),
                        ("endDate", "2020-02-01")] } := rfl

/-- C10: a temporal filter built with fewer than two date arguments
silently drops the unmatched parameter keys (one argument keeps only
`startDate`, none keeps no key), surplus arguments beyond two are
silently discarded, and no argument count raises an error (the
constructor is a total function); likewise through `FirstPublished` and
`LastUpdated`. -/
theorem TemporalFilter_arg_count_spec (p a b : String) (rest : List String) :
    TemporalFilter p [] = { path := p, params := some [] } ∧
    TemporalFilter p [a] = { path := p, params := some [("startDate", a)] } ∧
    TemporalFilter p (a :: b :: rest) =
      { path := p, params := some [("startDate", a), ("endDate", b)] } ∧
    FirstPublished [a] =
      { path := PUBLISHED_FIRST, params := some [("startDate", a)] } ∧
    LastUpdated [] = { path := PUBLISHED_LAST, params := some [] } :=
  ⟨rfl, rfl, rfl, rfl, rfl⟩

/-- C9: `advisory_list` on a list of raw advisory entries returns one
advisory object per entry, built by the external factory from the entry
and the normalized format token, preserving input order (a map over the
input list). -/
theorem advisory_list_spec {α : Type} (factory : Json → String → α)
    (xs : List Json) (adv_format : Option String) :
    advisory_list factory (Json.arr xs) adv_format =
      Except.ok (xs.map
        (fun adv => factory adv (ensure_adv_format_token adv_format))) := rfl

/-- C5: `get_by` on any topic outside the nine supported ones raises a
`KeyError` naming the offending topic, independently of the transport
and factory (no handler is called). -/
theorem get_by_unknown_topic_spec {α : Type} (gr : GetRequest)
    (factory : Json → String → α) (topic : String) (format : Option String)
    (aspect : String) (kwargs : Option (Option Filter))
    (h : topic ∉ SUPPORTED_TOPICS) :
    get_by gr factory topic format aspect kwargs =
      Except.error (PyError.keyError
        ("REST API \x27topic\x27 (" ++ topic ++ ") not (yet) supported.")) := by
  simp only [SUPPORTED_TOPICS, List.mem_cons, List.not_mem_nil, or_false,
    not_or] at h
  obtain ⟨h1, h2, h3, h4, h5, h6, h7, h8, h9⟩ := h
  simp [get_by, h1, h2, h3, h4, h5, h6, h7, h8, h9]

/-- Witness for C5 at the unsupported topic `bogus`. -/
theorem get_by_unknown_topic_spec_witness :
    get_by (fun _ _ => Except.ok Json.null) (fun (j : Json) _ => j) "bogus"
        (some "cvrf") "x" none =
      Except.error (PyError.keyError
        ("REST API \x27topic\x27 (" ++ "bogus" ++ ") not (yet) supported.")) :=
  get_by_unknown_topic_spec _ _ "bogus" _ "x" none (by decide)

/-- C8: `get_by` with topic `cve`, format `cvrf`, aspect `CVE-2015-1234`
dispatches to the cve handler, whose behavior is exactly that of issuing
the GET at path `cvrf/cve/CVE-2015-1234` with no query parameters and
mapping the advisories of the response. -/
theorem get_by_cve_path_spec {α : Type} (gr : GetRequest)
    (factory : Json → String → α) :
    get_by gr factory "cve" (some "cvrf") "CVE-2015-1234" none =
      (do
        let advisories ← gr "cvrf/cve/CVE-2015-1234" none
        let advs ← advisories.subscript "advisories"
        advisory_list factory advs (some "cvrf")) := rfl

/-- C2 evidence: `get_by` with topic `severity`, format `oval`, aspect
`high` and no filter argument raises `AttributeError` (from evaluating
the params attribute of `None`) without issuing any request: the result
is this error for every transport. -/
theorem get_by_severity_none_filter_attribute_error {α : Type}
    (gr : GetRequest) (factory : Json → String → α) :
    get_by gr factory "severity" (some "oval") "high" none =
      Except.error (PyError.attributeError
        "\x27NoneType\x27 object has no attribute \x27params\x27") := rfl

/-- C4: a successful `get_by_advisory` returns the one-element list
holding the advisory built from the raw response, whatever JSON shape
that response has. -/
theorem get_by_advisory_singleton_spec {α : Type} (gr : GetRequest)
    (factory : Json → String → α) (adv_format : Option String)
    (an_advisory : String) (a_filter : Option Filter) (j : Json)
    (h : gr (ensure_adv_format_token adv_format ++ "/advisory/" ++ an_advisory)
        none = Except.ok j) :
    get_by_advisory gr factory adv_format an_advisory a_filter =
      Except.ok [factory j (ensure_adv_format_token adv_format)] := by
  simp [get_by_advisory, h, except_ok_bind, Json.subscript, advisory_list,
    Json.iterate, List.lookup]

/-- Witness for C4: the raw response is itself a two-element JSON list,
yet the result is a one-element advisory list. -/
theorem get_by_advisory_singleton_spec_witness :
    get_by_advisory
        (fun _ _ => Except.ok (Json.arr [Json.null, Json.null]))
        (fun (j : Json) (s : String) => (j, s)) (some "cvrf") "adv123" none =
      Except.ok [(Json.arr [Json.null, Json.null], "cvrf")] :=
  get_by_advisory_singleton_spec _ _ _ _ _ _ rfl

/-- C3: whenever the underlying GET request raises an HTTP error (which
always carries the response), `get_by_ios` and `get_by_ios_xe` catch it
and re-raise a reconstructed HTTP error whose args are the status code
and body text of that response, with no response attached — not the
original error unchanged. -/
theorem ios_http_error_rewrap_spec {α : Type} (gr : GetRequest)
    (factory : Json → String → α) (adv_format : Option String)
    (ios_version : String) (a_filter : Option Filter) (args : List PyVal)
    (r : Response) :
    (gr "ios" (some [("version", ios_version)]) =
        Except.error (PyError.httpError args (some r)) →
      get_by_ios gr factory adv_format ios_version a_filter =
          Except.error (PyError.httpError
            [PyVal.int r.status_code, PyVal.str r.text] none) ∧
        get_by_ios gr factory adv_format ios_version a_filter ≠
          Except.error (PyError.httpError args (some r))) ∧
    (gr "iosxe" (some [("version", ios_version)]) =
        Except.error (PyError.httpError args (some r)) →
      get_by_ios_xe gr factory adv_format ios_version a_filter =
          Except.error (PyError.httpError
            [PyVal.int r.status_code, PyVal.str r.text] none) ∧
        get_by_ios_xe gr factory adv_format ios_version a_filter ≠
          Except.error (PyError.httpError args (some r))) := by
  constructor <;> intro h <;>
    simp [get_by_ios, get_by_ios_xe, ios_request_body, ios_rewrap, h,
      except_error_bind]

/-- Witness for C3: a transport that fails with a 404 carrying body text
leads `get_by_ios` to the reconstructed two-argument HTTP error. -/
theorem ios_http_error_rewrap_spec_witness :
    get_by_ios
        (fun _ _ => Except.error (PyError.httpError [PyVal.str "404 Error"]
          (some ⟨404, "Not Found", Json.null⟩)))
        (fun (j : Json) _ => j) (some "ios") "15.1" none =
      Except.error
        (PyError.httpError [PyVal.int 404, PyVal.str "Not Found"] none) :=
  ((ios_http_error_rewrap_spec _ _ (some "ios") "15.1" none
      [PyVal.str "404 Error"] ⟨404, "Not Found", Json.null⟩).1 rfl).1

/-- C7: `get_by_ios` and `get_by_ios_xe` ignore their format argument
entirely, and on success the request was issued at the fixed path
(`ios` resp. `iosxe`) with the version as query parameter, the result
list being built with the last entry of the format-token set (the
platform default) regardless of the format passed. -/
theorem ios_format_ignored_spec {α : Type} (gr : GetRequest)
    (factory : Json → String → α) (fmt fmt2 : Option String)
    (ios_version : String) (a_filter : Option Filter) (xs : List Json) :
    (get_by_ios gr factory fmt ios_version a_filter =
      get_by_ios gr factory fmt2 ios_version a_filter) ∧
    (get_by_ios_xe gr factory fmt ios_version a_filter =
      get_by_ios_xe gr factory fmt2 ios_version a_filter) ∧
    (gr "ios" (some [("version", ios_version)]) =
        Except.ok (Json.obj [("advisories", Json.arr xs)]) →
      get_by_ios gr factory fmt ios_version a_filter =
        Except.ok (xs.map (fun adv => factory adv ADV_TOKENS.getLast!))) ∧
    (gr "iosxe" (some [("version", ios_version)]) =
        Except.ok (Json.obj [("advisories", Json.arr xs)]) →
      get_by_ios_xe gr factory fmt ios_version a_filter =
        Except.ok (xs.map (fun adv => factory adv ADV_TOKENS.getLast!))) := by
  refine ⟨rfl, rfl, ?_, ?_⟩ <;> intro h <;>
    simp [get_by_ios, get_by_ios_xe, ios_request_body, ios_rewrap, h,
      except_ok_bind, Json.subscript, advisory_list, Json.iterate,
      ensure_adv_format_token, List.lookup]

/-- Witness for C7: with a transport returning one advisory for the ios
path, a cvrf format request still yields the advisory tagged with the
default token ios. -/
theorem ios_format_ignored_spec_witness :
    get_by_ios
        (fun _ _ => Except.ok (Json.obj [("advisories", Json.arr [Json.null])]))
        (fun (j : Json) (s : String) => (j, s)) (some "cvrf") "15.1" none =
      Except.ok [(Json.null, ADV_TOKENS.getLast!)] :=
  (ios_format_ignored_spec _ _ (some "cvrf") (some "cvrf") "15.1" none
      [Json.null]).2.2.1 rfl

end OpenVulnQuery
